import Mathlib

/-!
Shallow embedding of the authentication / RBAC core of the
FrontEnd-barberia-React repository, together with theorems settling the
specification claims about it.

Embedded source files:
* `src/lib/utils/jwt` (shipped as `src/unnamed/part_018`, second document):
  `decodeJwt`, `isTokenExpired`, `getRolesFromToken`, `getPermissionsFromToken`,
  `isAdmin`, `hasPermission`, `hasAllPermissions`, `hasAnyPermission`.
* `src/middleware.ts`: `decodeJwtInMiddleware`, `isAdminRole`,
  `hasRequiredPermission`, `getRequiredPermissions`, `middleware`, plus the
  constants `AUTH_COOKIE`, `FULL_ACCESS_PERMISSION`, `PUBLIC_ROUTES`,
  `PUBLIC_PREFIXES`, `ROUTE_PERMISSIONS`.

Modelling conventions:
* The base64url + JSON step of JWT decoding (`Buffer.from` / `atob` +
  `JSON.parse` inside a try/catch) is not string crunching the claims are
  about; it is abstracted as a parameter
  `parsePayload : String → Option JwtPayload` (`none` models a thrown
  exception, i.e. the catch branch).  The structural `split('.')` /
  three-segment check that the source performs before that step is embedded
  literally.
* JavaScript truthiness is embedded explicitly where the source relies on
  it: `!token` is true for an absent or empty cookie string;
  `payload?.exp &&` skips the check both when `exp` is `undefined` and when
  it is `0`; `!payload.exp` treats `exp === 0` as missing;
  `payload?.permissions || []` yields `[]` only when the field is absent
  (an empty array is truthy in JavaScript, so it is returned as-is — the
  result is the same as `Option.getD []`).
* `Date.now()` (milliseconds since epoch) is passed in as `now : Int`.
* JWT payload fields that can be absent are `Option`s.
-/

/-- Decoded JWT payload: shape shared by the `JwtPayload` interface of the
jwt utilities and the `JwtPayloadMiddleware` interface of `middleware.ts`
(`roles?`, `permissions?`, `isAdmin?`, `negocioId?`, `usuarioId?`, `sub?`,
`exp?`, `iat?`; every field optional). -/
structure JwtPayload where
  roles : Option (List String) := none
  permissions : Option (List String) := none
  isAdmin : Option Bool := none
  negocioId : Option Int := none
  usuarioId : Option Int := none
  sub : Option String := none
  exp : Option Int := none
  iat : Option Int := none
deriving DecidableEq, Repr

/-- Reserved permission string granting full access
(`FULL_ACCESS_PERMISSION = 'FULL_ACCESS'` in both source files). -/
def FULL_ACCESS_PERMISSION : String := "FULL_ACCESS"

/-- Substring test on character lists: true iff `needle` occurs
contiguously inside the second list.  Used to embed JavaScript
`String.prototype.includes`. -/
def charsContains (needle : List Char) : List Char → Bool
  | [] => needle.isEmpty
  | c :: t => needle.isPrefixOf (c :: t) || charsContains needle t

/-- Embedding of JavaScript `haystack.includes(needle)` (substring test). -/
def strIncludes (haystack needle : String) : Bool :=
  charsContains needle.data haystack.data

/-- Embedding of JavaScript `s.startsWith(start)`.  Extensionally
`String.isPrefixOf start s`, stated over the character lists so that it
reduces definitionally. -/
def strStartsWith (s start : String) : Bool :=
  start.data.isPrefixOf s.data

/-- Embedding of JavaScript `toUpperCase` (character-wise upper-casing; the
role strings in play are ASCII, where `Char.toUpper` agrees with it).
Extensionally `String.toUpper`, stated over the character list so that it
reduces definitionally. -/
def strToUpper (s : String) : String :=
  String.mk (s.data.map Char.toUpper)

/-- Embedding of JavaScript `role.toUpperCase().includes('ADMIN')`, the
per-role test of the full-access fallback. -/
def roleMatchesAdmin (role : String) : Bool :=
  strIncludes (strToUpper role) "ADMIN"

namespace JwtUtils

/-! Embeddings of the `src/lib/utils/jwt` functions.  These operate on a
whole token string and decode it internally, so each takes the abstracted
decoder `decodeJwt : String → Option JwtPayload` as its first argument. -/

/-- `getPermissionsFromToken(token)`: `payload?.permissions || []` after
decoding (absent payload or absent field gives `[]`). -/
def getPermissionsFromToken (decodeJwt : String → Option JwtPayload)
    (token : String) : List String :=
  match decodeJwt token with
  | none => []
  | some payload => payload.permissions.getD []

/-- `getRolesFromToken(token)`: `payload?.roles || []` after decoding. -/
def getRolesFromToken (decodeJwt : String → Option JwtPayload)
    (token : String) : List String :=
  match decodeJwt token with
  | none => []
  | some payload => payload.roles.getD []

/-- `isAdmin(token)`: full-access predicate.  Checks, in order:
`payload.isAdmin === true`; `payload.permissions?.includes(FULL_ACCESS)`;
`payload.roles?.some(role => role.toUpperCase().includes('ADMIN'))`. -/
def isAdmin (decodeJwt : String → Option JwtPayload) (token : String) : Bool :=
  match decodeJwt token with
  | none => false
  | some payload =>
    if payload.isAdmin = some true then true
    else if (payload.permissions.getD []).contains FULL_ACCESS_PERMISSION then true
    else if (payload.roles.getD []).any roleMatchesAdmin then true
    else false

/-- `hasPermission(token, permission)`: admin short-circuit, then exact
membership in the decoded permission list. -/
def hasPermission (decodeJwt : String → Option JwtPayload)
    (token : String) (permission : String) : Bool :=
  if isAdmin decodeJwt token then true
  else (getPermissionsFromToken decodeJwt token).contains permission

/-- `hasAllPermissions(token, permissions)`: admin short-circuit, then
`permissions.every(p => hasPermission(token, p))`. -/
def hasAllPermissions (decodeJwt : String → Option JwtPayload)
    (token : String) (permissions : List String) : Bool :=
  if isAdmin decodeJwt token then true
  else permissions.all (fun p => hasPermission decodeJwt token p)

/-- `hasAnyPermission(token, permissions)`: admin short-circuit, then
`permissions.some(p => hasPermission(token, p))`. -/
def hasAnyPermission (decodeJwt : String → Option JwtPayload)
    (token : String) (permissions : List String) : Bool :=
  if isAdmin decodeJwt token then true
  else permissions.any (fun p => hasPermission decodeJwt token p)

/-- `isTokenExpired` on an already-decoded payload (`now` is
`Date.now()` in milliseconds).  `!payload || !payload.exp` returns `true`
(JavaScript: `exp === 0` is falsy, hence also expired); otherwise
`now >= exp * 1000 - 60000` (60-second clock-skew margin). -/
def isTokenExpired (now : Int) (payload : Option JwtPayload) : Bool :=
  match payload with
  | none => true
  | some pl =>
    match pl.exp with
    | none => true
    | some e =>
      if e = 0 then true
      else decide (now ≥ e * 1000 - 60000)

end JwtUtils

namespace Middleware

/-! Embedding of `src/middleware.ts`. -/

/-- Possible outcomes of the guard.  `next` is `NextResponse.next()`;
`redirect url redirectParam deleteAuthCookie` is
`NextResponse.redirect(new URL(url, request.url))`, where `redirectParam`
records the value set with `searchParams.set('redirect', …)` (if any) and
`deleteAuthCookie` records whether `response.cookies.delete(AUTH_COOKIE)`
was called on the response. -/
inductive MwResponse where
  | next : MwResponse
  | redirect (url : String) (redirectParam : Option String)
      (deleteAuthCookie : Bool) : MwResponse
deriving DecidableEq, Repr

/-- True iff the response mutates (deletes) the auth cookie. -/
def MwResponse.deletesAuthCookie : MwResponse → Bool
  | .next => false
  | .redirect _ _ d => d

/-- `PUBLIC_ROUTES`: exact public paths. -/
def PUBLIC_ROUTES : List String :=
  ["/", "/login", "/register", "/reservar", "/nosotros", "/servicios"]

/-- `PUBLIC_PREFIXES`: paths starting with one of these are public. -/
def PUBLIC_PREFIXES : List String :=
  ["/api/public", "/_next", "/favicon"]

/-- `ROUTE_PERMISSIONS`: route → required permissions, in declaration
order (JavaScript object string keys keep insertion order, which the
`Object.entries` loop in `getRequiredPermissions` relies on). -/
def ROUTE_PERMISSIONS : List (String × List String) :=
  [("/dashboard/clientes", ["READ_CLIENTS"]),
   ("/dashboard/profesionales", ["READ_PROFESSIONALS"]),
   ("/dashboard/categorias", ["READ_CATEGORIES"]),
   ("/dashboard/servicios", ["READ_SERVICES"]),
   ("/dashboard/reservas", ["READ_BOOKING"]),
   ("/dashboard/configuracion", ["MANAGE_SETTINGS"])]

/-- Embedding of JavaScript `token.split('.')` on the character list:
splits at every `'.'`, keeping empty segments ( `""` splits to `[""]`,
exactly as in JavaScript).  Extensionally `String.splitOn "."`, stated
structurally so that it reduces definitionally. -/
def splitOnDot : List Char → List String
  | [] => [""]
  | c :: t =>
    if c = '.' then "" :: splitOnDot t
    else
      match splitOnDot t with
      | [] => [String.mk [c]]
      | h :: rest => String.mk (c :: h.data) :: rest

/-- `decodeJwtInMiddleware(token)`: splits on `'.'`; if not exactly three
segments, `null`; otherwise decodes segment 1 (base64url + JSON, the
abstracted `parsePayload`; `none` models the catch branch). -/
def decodeJwtInMiddleware (parsePayload : String → Option JwtPayload)
    (token : String) : Option JwtPayload :=
  let parts := splitOnDot token.data
  if parts.length = 3 then parsePayload parts[1]!
  else none

/-- `isAdminRole(payload)`: full-access predicate of the middleware, on an
already-decoded (possibly `null`) payload; same three ordered checks as
`JwtUtils.isAdmin`. -/
def isAdminRole (payload : Option JwtPayload) : Bool :=
  match payload with
  | none => false
  | some pl =>
    if pl.isAdmin = some true then true
    else if (pl.permissions.getD []).contains FULL_ACCESS_PERMISSION then true
    else if (pl.roles.getD []).any roleMatchesAdmin then true
    else false

/-- `hasRequiredPermission(payload, requiredPermissions)`: admin always
passes; `!payload?.permissions || payload.permissions.length === 0` denies;
otherwise `requiredPermissions.some(p => payload.permissions?.includes(p))`. -/
def hasRequiredPermission (payload : Option JwtPayload)
    (requiredPermissions : List String) : Bool :=
  if isAdminRole payload then true
  else
    match payload with
    | none => false
    | some pl =>
      match pl.permissions with
      | none => false
      | some perms =>
        if perms.length = 0 then false
        else requiredPermissions.any (fun p => perms.contains p)

/-- `getRequiredPermissions(pathname)`: exact key lookup in
`ROUTE_PERMISSIONS` first (the stored lists are non-empty, so the
JavaScript truthiness test on the looked-up value is just presence), then
the first entry whose key is a prefix of `pathname`, else `null`. -/
def getRequiredPermissions (pathname : String) : Option (List String) :=
  match ROUTE_PERMISSIONS.find? (fun kv => kv.1 = pathname) with
  | some kv => some kv.2
  | none =>
    (ROUTE_PERMISSIONS.find? (fun kv => strStartsWith pathname kv.1)).map
      (fun kv => kv.2)

/-- JavaScript truthiness of the cookie value
`request.cookies.get(AUTH_COOKIE)?.value`: an absent cookie and an empty
string are both falsy. -/
def tokenTruthy : Option String → Bool
  | none => false
  | some t => t != ""

/-- Inline expiry test of the middleware:
`payload?.exp && payload.exp * 1000 < Date.now()`.  A `null` payload, a
missing `exp` and `exp === 0` (falsy) all make the conjunction false —
the middleware does NOT treat them as expired. -/
def mwExpired (now : Int) (payload : Option JwtPayload) : Bool :=
  match payload with
  | none => false
  | some pl =>
    match pl.exp with
    | none => false
    | some e => decide (e ≠ 0) && decide (e * 1000 < now)

/-- Step 3 of `middleware` (the `token && pathname.startsWith('/dashboard')`
block), extracted as a function: `some r` means the block returned response
`r`; `none` means it fell through. -/
def dashboardCheck (parsePayload : String → Option JwtPayload) (now : Int)
    (pathname : String) (token : String) : Option MwResponse :=
  let payload := decodeJwtInMiddleware parsePayload token
  if mwExpired now payload then
    some (MwResponse.redirect "/login" none true)
  else
    match getRequiredPermissions pathname with
    | some requiredPermissions =>
      if requiredPermissions.length > 0 &&
          !hasRequiredPermission payload requiredPermissions then
        some (MwResponse.redirect "/dashboard" none false)
      else none
    | none => none

/-- `middleware(request)`: the route guard.  `pathname` is
`request.nextUrl.pathname`; `authCookie` is the raw `auth_token` cookie
value (`none` when the cookie is absent); `now` is `Date.now()`;
`parsePayload` abstracts the base64url+JSON step of decoding. -/
def middleware (parsePayload : String → Option JwtPayload) (now : Int)
    (pathname : String) (authCookie : Option String) : MwResponse :=
  if PUBLIC_ROUTES.contains pathname then MwResponse.next
  else if PUBLIC_PREFIXES.any (fun p => strStartsWith pathname p) then MwResponse.next
  else if !tokenTruthy authCookie && strStartsWith pathname "/dashboard" then
    MwResponse.redirect "/login" (some pathname) false
  else
    match
      (if tokenTruthy authCookie && strStartsWith pathname "/dashboard" then
        dashboardCheck parsePayload now pathname (authCookie.getD "")
      else none) with
    | some response => response
    | none =>
      if tokenTruthy authCookie && pathname == "/login" then
        MwResponse.redirect "/dashboard" none false
      else MwResponse.next

end Middleware

section Theorems

/-- C1: for every decoder, token and requested permission(s), whenever the
full-access condition (`isAdmin`) holds on the decoded token, `hasPermission`,
`hasAnyPermission` and `hasAllPermissions` all return `true`, including on the
empty list and on unknown permission names. -/
theorem C1_full_access_grants_every_check
    (decodeJwt : String → Option JwtPayload) (token : String)
    (h : JwtUtils.isAdmin decodeJwt token = true)
    (p : String) (ps : List String) :
    JwtUtils.hasPermission decodeJwt token p = true ∧
    JwtUtils.hasAnyPermission decodeJwt token ps = true ∧
    JwtUtils.hasAllPermissions decodeJwt token ps = true := by
  unfold JwtUtils.hasPermission JwtUtils.hasAnyPermission
    JwtUtils.hasAllPermissions
  simp [h]

/-- Witness for C1: a payload with the explicit `isAdmin : true` flag passes
`hasPermission` on the unknown empty-string permission and `hasAny`/`hasAll`
on the empty list. -/
theorem C1_full_access_grants_every_check_witness :
    JwtUtils.isAdmin (fun _ => some { isAdmin := some true }) "tok" = true ∧
    (JwtUtils.hasPermission (fun _ => some { isAdmin := some true }) "tok" "" = true ∧
     JwtUtils.hasAnyPermission (fun _ => some { isAdmin := some true }) "tok" [] = true ∧
     JwtUtils.hasAllPermissions (fun _ => some { isAdmin := some true }) "tok" [] = true) :=
  ⟨by decide,
   C1_full_access_grants_every_check (fun _ => some { isAdmin := some true })
     "tok" (by decide) "" []⟩

/-- C2: the middleware full-access predicate holds exactly when the payload is
present and (1) its `isAdmin` field is `true`, or (2) its permission list
contains `FULL_ACCESS`, or (3) some role name upper-cased contains the
substring `ADMIN`; in particular a payload whose only role is
`GERENTE_ADMIN`, with no explicit flag and no `FULL_ACCESS` permission,
satisfies it. -/
theorem C2_full_access_predicate_characterization :
    (∀ payload : Option JwtPayload,
      Middleware.isAdminRole payload = true ↔
        ∃ pl, payload = some pl ∧
          (pl.isAdmin = some true ∨
           (pl.permissions.getD []).contains FULL_ACCESS_PERMISSION = true ∨
           (pl.roles.getD []).any roleMatchesAdmin = true)) ∧
    Middleware.isAdminRole (some { roles := some ["GERENTE_ADMIN"] }) = true := by
  constructor
  · intro payload
    cases payload with
    | none => simp [Middleware.isAdminRole]
    | some pl =>
      simp only [Middleware.isAdminRole, Option.some.injEq]
      constructor
      · intro h
        refine ⟨pl, rfl, ?_⟩
        split_ifs at h with h1 h2 h3
        · exact Or.inl h1
        · exact Or.inr (Or.inl h2)
        · exact Or.inr (Or.inr h3)
      · rintro ⟨pl', hpl, hcond⟩
        cases hpl
        split_ifs with h1 h2 h3
        · rfl
        · rfl
        · rfl
        · rcases hcond with h | h | h
          · exact absurd h h1
          · exact absurd h h2
          · exact absurd h h3
  · decide

/-- C3: for a decoded payload on which full access fails, `hasPermission`
returns `true` exactly when the requested permission is a member (exact,
case-sensitive string equality) of the payload's permission list. -/
theorem C3_hasPermission_iff_member
    (decodeJwt : String → Option JwtPayload) (token p : String)
    (pl : JwtPayload) (hdec : decodeJwt token = some pl)
    (hadm : JwtUtils.isAdmin decodeJwt token = false) :
    (JwtUtils.hasPermission decodeJwt token p = true ↔
      p ∈ pl.permissions.getD []) := by
  unfold JwtUtils.hasPermission JwtUtils.getPermissionsFromToken
  simp [hadm, hdec]

/-- Witness for C3: a non-admin payload holding exactly `READ_CLIENTS` passes
`hasPermission` for `READ_CLIENTS`. -/
theorem C3_hasPermission_iff_member_witness :
    JwtUtils.hasPermission (fun _ => some { permissions := some ["READ_CLIENTS"] })
      "tok" "READ_CLIENTS" = true :=
  (C3_hasPermission_iff_member
      (fun _ => some { permissions := some ["READ_CLIENTS"] }) "tok"
      "READ_CLIENTS" { permissions := some ["READ_CLIENTS"] } rfl
      (by decide)).mpr (by decide)

/-- C7: `isTokenExpired` is `true` exactly when the payload is absent, the
`exp` field is absent, or `now` is at or past `exp * 1000 - 60000`
(60-second clock-skew margin, times in milliseconds; `now = Date.now() ≥ 0`);
consequently a token whose expiry lies more than 60 seconds in the past is
always reported expired. -/
theorem C7_isTokenExpired_characterization (now : Int) (hnow : 0 ≤ now)
    (payload : Option JwtPayload) :
    (JwtUtils.isTokenExpired now payload = true ↔
      payload = none ∨
        ∃ pl, payload = some pl ∧
          (pl.exp = none ∨
           ∃ e, pl.exp = some e ∧ e * 1000 - 60000 ≤ now)) ∧
    (∀ pl e, payload = some pl → pl.exp = some e →
      e * 1000 + 60000 < now → JwtUtils.isTokenExpired now payload = true) := by
  constructor
  · cases payload with
    | none => simp [JwtUtils.isTokenExpired]
    | some pl =>
      cases hexp : pl.exp with
      | none => simp [JwtUtils.isTokenExpired, hexp]
      | some e =>
        simp only [JwtUtils.isTokenExpired, hexp]
        constructor
        · intro h
          refine Or.inr ⟨pl, rfl, Or.inr ⟨e, hexp, ?_⟩⟩
          by_cases he : e = 0
          · omega
          · rw [if_neg he] at h
            have := of_decide_eq_true h
            omega
        · intro h
          rcases h with h | ⟨pl', hpl, hc⟩
          · exact absurd h (by simp)
          · cases Option.some.inj hpl
            rcases hc with hc | ⟨e', he', hle⟩
            · rw [hexp] at hc; cases hc
            · rw [hexp] at he'
              cases Option.some.inj he'
              by_cases he : e = 0
              · simp [he]
              · rw [if_neg he]
                exact decide_eq_true (by omega)
  · intro pl e hpl hexp hlt
    subst hpl
    simp only [JwtUtils.isTokenExpired, hexp]
    by_cases he : e = 0
    · simp [he]
    · rw [if_neg he]
      exact decide_eq_true (by omega)

/-- Witness for C7: at time `0` (with `0 ≤ 0`) the absent payload is reported
expired. -/
theorem C7_isTokenExpired_characterization_witness :
    JwtUtils.isTokenExpired 0 none = true :=
  ((C7_isTokenExpired_characterization 0 le_rfl none).1).mpr (Or.inl rfl)

/-- Helper: a cookie value is truthy exactly when it is a present, non-empty
string. -/
theorem tokenTruthy_eq_true_iff (c : Option String) :
    Middleware.tokenTruthy c = true ↔ ∃ t, c = some t ∧ t ≠ "" := by
  cases c with
  | none => simp [Middleware.tokenTruthy]
  | some t => simp [Middleware.tokenTruthy]

/-- Helper: the middleware's inline expiry test holds exactly when the decoded
payload is present and carries a nonzero `exp` with `exp * 1000 < now`. -/
theorem mwExpired_eq_true_iff (now : Int) (payload : Option JwtPayload) :
    Middleware.mwExpired now payload = true ↔
      ∃ pl e, payload = some pl ∧ pl.exp = some e ∧ e ≠ 0 ∧ e * 1000 < now := by
  cases payload with
  | none => simp [Middleware.mwExpired]
  | some pl =>
    cases hexp : pl.exp with
    | none => simp [Middleware.mwExpired, hexp]
    | some e =>
      simp only [Middleware.mwExpired, hexp, Bool.and_eq_true, decide_eq_true_eq]
      constructor
      · rintro ⟨he0, hlt⟩
        exact ⟨pl, e, rfl, hexp, he0, hlt⟩
      · rintro ⟨pl', e', hpl, hexp', he0, hlt⟩
        cases Option.some.inj hpl
        rw [hexp] at hexp'
        cases Option.some.inj hexp'
        exact ⟨he0, hlt⟩

/-- Helper: a path under `/dashboard` is never the login path. -/
theorem beq_login_eq_false_of_dashboard (pathname : String)
    (hdash : strStartsWith pathname "/dashboard" = true) :
    (pathname == "/login") = false := by
  by_cases h : pathname = "/login"
  · subst h; exact absurd hdash (by decide)
  · exact beq_eq_false_iff_ne.mpr h

/-- Helper: on a non-public path under `/dashboard` with a truthy cookie, the
guard's outcome is decided by the step-3 block, falling through to allow. -/
theorem middleware_on_dashboard_with_token
    (parsePayload : String → Option JwtPayload) (now : Int)
    (pathname t : String)
    (hpub : Middleware.PUBLIC_ROUTES.contains pathname = false)
    (hpre : Middleware.PUBLIC_PREFIXES.any (fun p => strStartsWith pathname p) = false)
    (hdash : strStartsWith pathname "/dashboard" = true)
    (ht : t ≠ "") :
    Middleware.middleware parsePayload now pathname (some t) =
      (Middleware.dashboardCheck parsePayload now pathname t).getD
        Middleware.MwResponse.next := by
  have htt : Middleware.tokenTruthy (some t) = true := by
    simp [Middleware.tokenTruthy, ht]
  have hlog := beq_login_eq_false_of_dashboard pathname hdash
  unfold Middleware.middleware
  rw [hpub, hpre, htt, hdash, hlog]
  simp only [Bool.false_eq_true, if_false, Bool.not_true, Bool.false_and,
    Bool.and_self, if_true, Bool.true_and, Bool.and_false, Option.getD_some]
  cases hdc : Middleware.dashboardCheck parsePayload now pathname t with
  | none => simp [hdc]
  | some r => simp [hdc]

/-- Helper: when the decoded payload is expired in the middleware's sense,
the step-3 block redirects to login and deletes the cookie. -/
theorem dashboardCheck_of_expired
    (parsePayload : String → Option JwtPayload) (now : Int) (pathname t : String)
    (hexp : Middleware.mwExpired now
      (Middleware.decodeJwtInMiddleware parsePayload t) = true) :
    Middleware.dashboardCheck parsePayload now pathname t =
      some (Middleware.MwResponse.redirect "/login" none true) := by
  unfold Middleware.dashboardCheck
  simp [hexp]

/-- Helper: when the decoded payload is not expired in the middleware's sense,
the step-3 block reduces to the permission lookup. -/
theorem dashboardCheck_of_not_expired
    (parsePayload : String → Option JwtPayload) (now : Int) (pathname t : String)
    (hexp : Middleware.mwExpired now
      (Middleware.decodeJwtInMiddleware parsePayload t) = false) :
    Middleware.dashboardCheck parsePayload now pathname t =
      (match Middleware.getRequiredPermissions pathname with
       | some requiredPermissions =>
         if requiredPermissions.length > 0 &&
             !Middleware.hasRequiredPermission
               (Middleware.decodeJwtInMiddleware parsePayload t)
               requiredPermissions then
           some (Middleware.MwResponse.redirect "/dashboard" none false)
         else none
       | none => none) := by
  unfold Middleware.dashboardCheck
  simp [hexp]

/-- Helper: for a non-admin payload, `hasRequiredPermission` is exactly
"some required permission is in the payload's permission list". -/
theorem hasRequiredPermission_of_not_admin (pl : JwtPayload) (req : List String)
    (hadm : Middleware.isAdminRole (some pl) = false) :
    Middleware.hasRequiredPermission (some pl) req =
      req.any (fun p => (pl.permissions.getD []).contains p) := by
  unfold Middleware.hasRequiredPermission
  rw [hadm]
  cases hperm : pl.permissions with
  | none => simp [hperm]
  | some perms =>
    by_cases hlen : perms = []
    · subst hlen
      simp [hperm]
    · simp [hperm, hlen]

/-- C4 counterexample: `/perfil` is neither on the public allow-list nor
under a public prefix, yet a request to it with no auth cookie is answered
with plain allow, not with the login redirect the claim requires. -/
theorem C4_counterexample :
    Middleware.PUBLIC_ROUTES.contains "/perfil" = false ∧
    Middleware.PUBLIC_PREFIXES.any (fun p => strStartsWith "/perfil" p) = false ∧
    Middleware.middleware (fun _ => none) 0 "/perfil" none =
      Middleware.MwResponse.next ∧
    Middleware.middleware (fun _ => none) 0 "/perfil" none ≠
      Middleware.MwResponse.redirect "/login" (some "/perfil") false := by
  decide

/-- C4 (amended): only `/dashboard` paths are guarded — for every request
whose path is not public AND starts with `/dashboard`, carrying no auth token
cookie, the guard redirects to `/login` and records the original path in the
`redirect` query parameter. -/
theorem C4_amended_dashboard_without_token_redirects
    (parsePayload : String → Option JwtPayload) (now : Int) (pathname : String)
    (hpub : Middleware.PUBLIC_ROUTES.contains pathname = false)
    (hpre : Middleware.PUBLIC_PREFIXES.any (fun p => strStartsWith pathname p) = false)
    (hdash : strStartsWith pathname "/dashboard" = true) :
    Middleware.middleware parsePayload now pathname none =
      Middleware.MwResponse.redirect "/login" (some pathname) false := by
  unfold Middleware.middleware
  rw [hpub, hpre, hdash]
  simp [Middleware.tokenTruthy]

/-- Witness for the amended C4: a request to `/dashboard/clientes` without a
cookie is redirected to login carrying the original path. -/
theorem C4_amended_dashboard_without_token_redirects_witness :
    Middleware.middleware (fun _ => none) 0 "/dashboard/clientes" none =
      Middleware.MwResponse.redirect "/login" (some "/dashboard/clientes") false :=
  C4_amended_dashboard_without_token_redirects (fun _ => none) 0
    "/dashboard/clientes" (by decide) (by decide) (by decide)

/-- C5 counterexample: a dashboard request whose token decodes to a payload
with no `exp` field is allowed through — the middleware neither redirects to
login nor clears the cookie, although the claim counts a missing `exp` as
expired. -/
theorem C5_counterexample :
    Middleware.decodeJwtInMiddleware
        (fun _ => some ({ exp := none } : JwtPayload)) "a.b.c" =
      some ({ exp := none } : JwtPayload) ∧
    Middleware.middleware (fun _ => some ({ exp := none } : JwtPayload)) 0
        "/dashboard" (some "a.b.c") =
      Middleware.MwResponse.next ∧
    Middleware.MwResponse.next ≠
      Middleware.MwResponse.redirect "/login" none true := by
  decide

/-- C5 (amended): the middleware's expiry branch fires only for a decoded
payload that actually carries a nonzero `exp` with `exp * 1000 < now` (no
60-second margin; missing payload or missing `exp` is NOT treated as
expired); in that case the guard redirects to `/login` and deletes the auth
cookie. -/
theorem C5_amended_expired_token_redirects_and_clears
    (parsePayload : String → Option JwtPayload) (now : Int)
    (pathname t : String) (pl : JwtPayload) (e : Int)
    (hpub : Middleware.PUBLIC_ROUTES.contains pathname = false)
    (hpre : Middleware.PUBLIC_PREFIXES.any (fun p => strStartsWith pathname p) = false)
    (hdash : strStartsWith pathname "/dashboard" = true)
    (ht : t ≠ "")
    (hdec : Middleware.decodeJwtInMiddleware parsePayload t = some pl)
    (hexp : pl.exp = some e) (he0 : e ≠ 0) (hlt : e * 1000 < now) :
    Middleware.middleware parsePayload now pathname (some t) =
      Middleware.MwResponse.redirect "/login" none true := by
  rw [middleware_on_dashboard_with_token parsePayload now pathname t hpub hpre
    hdash ht]
  rw [dashboardCheck_of_expired parsePayload now pathname t
    ((mwExpired_eq_true_iff now _).mpr ⟨pl, e, hdec, hexp, he0, hlt⟩)]
  rfl

/-- Witness for the amended C5: a token decoding to `exp = 1` (expired long
ago) on `/dashboard` is redirected to login with the cookie deleted. -/
theorem C5_amended_expired_token_redirects_and_clears_witness :
    Middleware.middleware (fun _ => some ({ exp := some 1 } : JwtPayload))
        1000000000000 "/dashboard" (some "a.b.c") =
      Middleware.MwResponse.redirect "/login" none true :=
  C5_amended_expired_token_redirects_and_clears
    (fun _ => some ({ exp := some 1 } : JwtPayload)) 1000000000000
    "/dashboard" "a.b.c" ({ exp := some 1 } : JwtPayload) 1
    (by decide) (by decide) (by decide) (by decide) rfl rfl (by decide)
    (by decide)

/-- C6 counterexample: on `/dashboard`, a malformed (undecodable) token is
allowed through, while the very same request with no token at all is
redirected to login — the outcomes differ, so a malformed token is NOT
treated as absent. -/
theorem C6_counterexample :
    Middleware.middleware (fun _ => none) 0 "/dashboard" (some "garbage") =
      Middleware.MwResponse.next ∧
    Middleware.middleware (fun _ => none) 0 "/dashboard" none =
      Middleware.MwResponse.redirect "/login" (some "/dashboard") false ∧
    Middleware.MwResponse.next ≠
      Middleware.MwResponse.redirect "/login" (some "/dashboard") false := by
  decide

/-- C6 (amended): a malformed token is treated as an authenticated user with
no permissions, not as an absent token: on a non-public `/dashboard` path the
expiry check is skipped (null payload) and the request is redirected to
`/dashboard` when the route declares required permissions, or allowed through
when it declares none. -/
theorem C6_amended_malformed_token_is_permissionless
    (parsePayload : String → Option JwtPayload) (now : Int)
    (pathname t : String)
    (hpub : Middleware.PUBLIC_ROUTES.contains pathname = false)
    (hpre : Middleware.PUBLIC_PREFIXES.any (fun p => strStartsWith pathname p) = false)
    (hdash : strStartsWith pathname "/dashboard" = true)
    (ht : t ≠ "")
    (hdec : Middleware.decodeJwtInMiddleware parsePayload t = none) :
    Middleware.middleware parsePayload now pathname (some t) =
      (match Middleware.getRequiredPermissions pathname with
       | some req =>
         if req.length > 0 then
           Middleware.MwResponse.redirect "/dashboard" none false
         else Middleware.MwResponse.next
       | none => Middleware.MwResponse.next) := by
  rw [middleware_on_dashboard_with_token parsePayload now pathname t hpub hpre
    hdash ht]
  rw [dashboardCheck_of_not_expired parsePayload now pathname t
    (by rw [hdec]; rfl)]
  rw [hdec]
  cases hreq : Middleware.getRequiredPermissions pathname with
  | none => rfl
  | some req =>
    have hnoperm : Middleware.hasRequiredPermission none req = false := by
      unfold Middleware.hasRequiredPermission
      rfl
    by_cases hlen : req.length > 0
    · simp [hnoperm, hlen]
    · simp [hnoperm, hlen]

/-- Witness for the amended C6: a malformed token on `/dashboard/clientes`
(a route requiring `READ_CLIENTS`) is redirected to `/dashboard`, with the
cookie left untouched. -/
theorem C6_amended_malformed_token_is_permissionless_witness :
    Middleware.middleware (fun _ => none) 0 "/dashboard/clientes"
        (some "garbage") =
      Middleware.MwResponse.redirect "/dashboard" none false := by
  have h := C6_amended_malformed_token_is_permissionless (fun _ => none) 0
    "/dashboard/clientes" "garbage" (by decide) (by decide) (by decide)
    (by decide) (by decide)
  simpa using h

/-- C8: for a request to `/dashboard/clientes` with a valid, unexpired,
non-admin token, the guard redirects to `/dashboard` when the decoded
permission list lacks `READ_CLIENTS` and allows the request when it contains
`READ_CLIENTS` (the route map entry being `["READ_CLIENTS"]`). -/
theorem C8_clientes_route_permission_gate
    (parsePayload : String → Option JwtPayload) (now : Int)
    (t : String) (pl : JwtPayload)
    (ht : t ≠ "")
    (hdec : Middleware.decodeJwtInMiddleware parsePayload t = some pl)
    (hadm : Middleware.isAdminRole (some pl) = false)
    (hexp : Middleware.mwExpired now (some pl) = false) :
    ((pl.permissions.getD []).contains "READ_CLIENTS" = false →
      Middleware.middleware parsePayload now "/dashboard/clientes" (some t) =
        Middleware.MwResponse.redirect "/dashboard" none false) ∧
    ((pl.permissions.getD []).contains "READ_CLIENTS" = true →
      Middleware.middleware parsePayload now "/dashboard/clientes" (some t) =
        Middleware.MwResponse.next) := by
  have hm := middleware_on_dashboard_with_token parsePayload now
    "/dashboard/clientes" t (by decide) (by decide) (by decide) ht
  rw [dashboardCheck_of_not_expired parsePayload now "/dashboard/clientes" t
    (by rw [hdec]; exact hexp)] at hm
  have hreq : Middleware.getRequiredPermissions "/dashboard/clientes" =
      some ["READ_CLIENTS"] := by decide
  rw [hreq, hdec] at hm
  have hhr := hasRequiredPermission_of_not_admin pl ["READ_CLIENTS"] hadm
  have hany : (["READ_CLIENTS"].any
      (fun p => (pl.permissions.getD []).contains p)) =
      (pl.permissions.getD []).contains "READ_CLIENTS" := by
    simp
  rw [hany] at hhr
  constructor
  · intro hno
    have hno' : "READ_CLIENTS" ∉ pl.permissions.getD [] := by
      simpa using hno
    rw [hm]
    simp [hhr, hno']
  · intro hyes
    have hyes' : "READ_CLIENTS" ∈ pl.permissions.getD [] := by
      simpa using hyes
    rw [hm]
    simp [hhr, hyes']

/-- Witness for C8: with permission list `["OTHER"]` the request is
redirected to `/dashboard`; membership of `READ_CLIENTS` fails there. -/
theorem C8_clientes_route_permission_gate_witness :
    Middleware.middleware
        (fun _ => some ({ permissions := some ["OTHER"], exp := some 99999999999 } : JwtPayload))
        1000 "/dashboard/clientes" (some "a.b.c") =
      Middleware.MwResponse.redirect "/dashboard" none false :=
  (C8_clientes_route_permission_gate
      (fun _ => some ({ permissions := some ["OTHER"], exp := some 99999999999 } : JwtPayload))
      1000 "a.b.c"
      ({ permissions := some ["OTHER"], exp := some 99999999999 } : JwtPayload)
      (by decide) rfl (by decide) (by decide)).1 (by decide)

/-- C9: the claim (and the source's own section-4 comment) says a logged-in
request to `/login` is redirected to `/dashboard`; in fact `/login` is on
`PUBLIC_ROUTES`, so the guard returns plain allow in step 1 for EVERY cookie
value and the login-redirect branch is unreachable. -/
theorem C9_login_route_always_allowed
    (parsePayload : String → Option JwtPayload) (now : Int)
    (authCookie : Option String) :
    Middleware.middleware parsePayload now "/login" authCookie =
      Middleware.MwResponse.next := by
  unfold Middleware.middleware
  rw [show Middleware.PUBLIC_ROUTES.contains "/login" = true from by decide]
  rfl

/-- Helper: full boolean characterization of when the guard's response
deletes the auth cookie. -/
theorem middleware_deletesAuthCookie_eq
    (parsePayload : String → Option JwtPayload) (now : Int)
    (pathname : String) (authCookie : Option String) :
    (Middleware.middleware parsePayload now pathname
        authCookie).deletesAuthCookie =
      (!Middleware.PUBLIC_ROUTES.contains pathname &&
       !Middleware.PUBLIC_PREFIXES.any (fun p => strStartsWith pathname p) &&
       Middleware.tokenTruthy authCookie &&
       strStartsWith pathname "/dashboard" &&
       Middleware.mwExpired now
         (Middleware.decodeJwtInMiddleware parsePayload
           (authCookie.getD ""))) := by
  simp only [Middleware.middleware, Middleware.dashboardCheck]
  cases h1 : Middleware.PUBLIC_ROUTES.contains pathname <;>
    cases h2 : Middleware.PUBLIC_PREFIXES.any (fun p => strStartsWith pathname p) <;>
    cases h3 : Middleware.tokenTruthy authCookie <;>
    cases h4 : strStartsWith pathname "/dashboard" <;>
    cases h5 : Middleware.mwExpired now
      (Middleware.decodeJwtInMiddleware parsePayload (authCookie.getD "")) <;>
    first
      | rfl
      | ((repeat' split) <;>
          first
            | rfl
            | (simp_all [Middleware.MwResponse.deletesAuthCookie]; done)
            | (rename_i heq
               (repeat' split at heq) <;> (try cases heq) <;>
                 simp_all [Middleware.MwResponse.deletesAuthCookie]))

/-- C10: the guard's response deletes the `auth_token` cookie only in the
expired-token branch — whenever the cookie is deleted, the response is the
plain login redirect, the path is under `/dashboard`, the cookie held a
non-empty token, and its decoded payload carried a nonzero `exp` with
`exp * 1000 < now`; on every other outcome the cookie is left unchanged. -/
theorem C10_cookie_deleted_only_in_expired_branch
    (parsePayload : String → Option JwtPayload) (now : Int)
    (pathname : String) (authCookie : Option String)
    (h : (Middleware.middleware parsePayload now pathname
      authCookie).deletesAuthCookie = true) :
    Middleware.middleware parsePayload now pathname authCookie =
      Middleware.MwResponse.redirect "/login" none true ∧
    strStartsWith pathname "/dashboard" = true ∧
    ∃ t, authCookie = some t ∧ t ≠ "" ∧
      ∃ pl e, Middleware.decodeJwtInMiddleware parsePayload t = some pl ∧
        pl.exp = some e ∧ e ≠ 0 ∧ e * 1000 < now := by
  rw [middleware_deletesAuthCookie_eq] at h
  simp only [Bool.and_eq_true, Bool.not_eq_true'] at h
  obtain ⟨⟨⟨⟨h1, h2⟩, h3⟩, h4⟩, h5⟩ := h
  obtain ⟨t, hct, htne⟩ := (tokenTruthy_eq_true_iff authCookie).mp h3
  subst hct
  simp only [Option.getD_some] at h5
  obtain ⟨pl, e, hdec, hexp, he0, hlt⟩ := (mwExpired_eq_true_iff now _).mp h5
  refine ⟨?_, h4, t, rfl, htne, pl, e, hdec, hexp, he0, hlt⟩
  rw [middleware_on_dashboard_with_token parsePayload now pathname t h1 h2 h4
    htne]
  rw [dashboardCheck_of_expired parsePayload now pathname t h5]
  rfl

/-- Witness for C10: a token decoding to `exp = 1` on `/dashboard` makes the
guard delete the cookie, and the theorem pins the response to the plain login
redirect. -/
theorem C10_cookie_deleted_only_in_expired_branch_witness :
    Middleware.middleware (fun _ => some ({ exp := some 1 } : JwtPayload))
        1000000000000 "/dashboard" (some "a.b.c") =
      Middleware.MwResponse.redirect "/login" none true :=
  (C10_cookie_deleted_only_in_expired_branch
    (fun _ => some ({ exp := some 1 } : JwtPayload)) 1000000000000
    "/dashboard" (some "a.b.c") (by decide)).1

end Theorems
